import Mathlib

/-!
Verification of the multiclaude-ui client library.

This file shallowly embeds the data-model and client code of the repository:

* `src/reference/python/types.py`  — pydantic models and parse helpers
  (namespace `Ref` below);
* `src/templates/python-tool/src/multiclaude_tool/types.py` — the template
  variant of the same models, with field defaults (namespace `Tool`);
* `src/templates/python-tool/src/multiclaude_tool/state.py` — `StateReader`
  and the state utility functions;
* `src/templates/python-tool/src/multiclaude_tool/client.py` — `DaemonClient`.

JSON values are modelled by the inductive `Json`. Python `dict` construction
from a key/value sequence (as performed by `json.loads` for JSON objects) is
modelled by `dedupKeys`: a repeated key overwrites the stored value but keeps
the position of its first insertion, exactly Python's dict semantics.
Library internals outside the repository (the socket, the filesystem,
pydantic's `datetime` validator) are abstracted: the socket and filesystem
become explicit outcome parameters, and the `datetime` validator becomes a
function parameter `pd : Json → Option PyDateTime`.
-/

set_option autoImplicit false

/-- A JSON value, as produced by `json.loads`. Numbers are modelled as
integers (the fields concerned — `pid`, `pr_number` — are integral). An
object is the ordered field list of the textual document; conversion to a
Python `dict` is `dedupKeys`. -/
inductive Json where
  | null
  | bool (b : Bool)
  | num (n : Int)
  | str (s : String)
  | arr (elts : List Json)
  | obj (fields : List (String × Json))
  deriving Repr

/-- One step of Python dict construction: inserting key `kv.1` with value
`kv.2` into the association list `acc`. A present key is overwritten in
place; a fresh key is appended. -/
def insertKey (acc : List (String × Json)) (kv : String × Json) :
    List (String × Json) :=
  if acc.any (fun p => p.1 = kv.1) then
    acc.map (fun p => if p.1 = kv.1 then (p.1, kv.2) else p)
  else
    acc ++ [kv]

/-- Python dict construction from an ordered field list (the semantics
`json.loads` applies to a JSON object): later duplicates overwrite, first
positions win. -/
def dedupKeys (l : List (String × Json)) : List (String × Json) :=
  l.foldl insertKey []

/-- Field access on a JSON object after Python dict conversion. -/
def objGet (fields : List (String × Json)) (key : String) : Option Json :=
  (dedupKeys fields).lookup key

/-! ## Enum-like Literal types

`AgentType`, `TrackMode` and `TaskStatus` are `Literal` string types declared
identically in `src/reference/python/types.py` and in
`src/templates/python-tool/src/multiclaude_tool/types.py`; they are embedded
once and shared by both namespaces. -/

/-- The closed set of agent types (`AgentType` Literal). -/
inductive AgentType where
  | supervisor
  | worker
  | mergeQueue
  | prShepherd
  | workspace
  | review
  | genericPersistent
  deriving DecidableEq, Repr, Fintype

/-- The wire string of each agent type, exactly the Literal alternatives. -/
def AgentType.toWire : AgentType → String
  | .supervisor => "supervisor"
  | .worker => "worker"
  | .mergeQueue => "merge-queue"
  | .prShepherd => "pr-shepherd"
  | .workspace => "workspace"
  | .review => "review"
  | .genericPersistent => "generic-persistent"

/-- Track modes for merge-queue and pr-shepherd agents (`TrackMode`). -/
inductive TrackMode where
  | all
  | author
  | assigned
  deriving DecidableEq, Repr, Fintype

def TrackMode.toWire : TrackMode → String
  | .all => "all"
  | .author => "author"
  | .assigned => "assigned"

/-- Task status values (`TaskStatus`). -/
inductive TaskStatus where
  | open
  | merged
  | closed
  | noPr
  | failed
  | unknown
  deriving DecidableEq, Repr, Fintype

def TaskStatus.toWire : TaskStatus → String
  | .open => "open"
  | .merged => "merged"
  | .closed => "closed"
  | .noPr => "no-pr"
  | .failed => "failed"
  | .unknown => "unknown"

/-! ## Primitive pydantic validators

Both modules validate fields with pydantic. The primitive field validators
are embedded as `Option`-valued functions on `Json`; a `none` result stands
for `pydantic.ValidationError`. A `Literal` validator accepts exactly its
listed strings. -/

/-- pydantic validation of a `bool` field from JSON. -/
def vBool : Json → Option Bool
  | .bool b => some b
  | _ => none

/-- pydantic validation of an `int` field from JSON. -/
def vInt : Json → Option Int
  | .num n => some n
  | _ => none

/-- pydantic validation of a `str` field from JSON. -/
def vStr : Json → Option String
  | .str s => some s
  | _ => none

/-- pydantic validation of the `AgentType` Literal. -/
def vAgentType : Json → Option AgentType
  | .str "supervisor" => some .supervisor
  | .str "worker" => some .worker
  | .str "merge-queue" => some .mergeQueue
  | .str "pr-shepherd" => some .prShepherd
  | .str "workspace" => some .workspace
  | .str "review" => some .review
  | .str "generic-persistent" => some .genericPersistent
  | _ => none

/-- pydantic validation of the `TrackMode` Literal. -/
def vTrackMode : Json → Option TrackMode
  | .str "all" => some .all
  | .str "author" => some .author
  | .str "assigned" => some .assigned
  | _ => none

/-- pydantic validation of the `TaskStatus` Literal. -/
def vTaskStatus : Json → Option TaskStatus
  | .str "open" => some .open
  | .str "merged" => some .merged
  | .str "closed" => some .closed
  | .str "no-pr" => some .noPr
  | .str "failed" => some .failed
  | .str "unknown" => some .unknown
  | _ => none

/-- A required pydantic field: must be present and validate. -/
def reqField {α : Type} (fields : List (String × Json)) (key : String)
    (v : Json → Option α) : Option α :=
  match objGet fields key with
  | none => none
  | some j => v j

/-- An optional pydantic field (`T | None = None`): absent or `null` yields
`None`; a present non-null value must validate. -/
def optField {α : Type} (fields : List (String × Json)) (key : String)
    (v : Json → Option α) : Option (Option α) :=
  match objGet fields key with
  | none => some none
  | some .null => some none
  | some j => (v j).map some

/-- A pydantic field with a non-`None` default (`T = default`): absent yields
the default; a present value (including `null`) must validate. -/
def defField {α : Type} (fields : List (String × Json)) (key : String)
    (v : Json → Option α) (dflt : α) : Option α :=
  match objGet fields key with
  | none => some dflt
  | some j => v j

/-- Serialization of an optional string field (`model_dump` emits `None` as
`null`). -/
def jsonOfOptStr : Option String → Json
  | none => .null
  | some s => .str s

/-- Serialization of an optional bool field. -/
def jsonOfOptBool : Option Bool → Json
  | none => .null
  | some b => .bool b

/-- Serialization of an optional int field. -/
def jsonOfOptInt : Option Int → Json
  | none => .null
  | some n => .num n

/-- Serialization of an optional structured field: `model_dump` emits `None`
as `null` and otherwise serializes the value. -/
def jsonOfOpt {α : Type} (f : α → Json) : Option α → Json
  | none => .null
  | some a => f a

/-! ## Shared configuration models

`MergeQueueConfig`, `PRShepherdConfig` and `ForkConfig` carry the same fields
in both Python modules (they differ only in validation defaults, embedded in
the per-module validators below). -/

/-- Configuration for the merge-queue agent. -/
structure MergeQueueConfig where
  enabled : Bool
  track_mode : TrackMode
  deriving DecidableEq, Repr

/-- Configuration for the pr-shepherd agent (used in fork mode). -/
structure PRShepherdConfig where
  enabled : Bool
  track_mode : TrackMode
  deriving DecidableEq, Repr

/-- Fork-related configuration for a repository. -/
structure ForkConfig where
  is_fork : Bool
  upstream_url : Option String
  upstream_owner : Option String
  upstream_repo : Option String
  force_fork_mode : Option Bool
  deriving DecidableEq, Repr

def MergeQueueConfig.toJson (c : MergeQueueConfig) : Json :=
  .obj [("enabled", .bool c.enabled), ("track_mode", .str c.track_mode.toWire)]

def PRShepherdConfig.toJson (c : PRShepherdConfig) : Json :=
  .obj [("enabled", .bool c.enabled), ("track_mode", .str c.track_mode.toWire)]

def ForkConfig.toJson (c : ForkConfig) : Json :=
  .obj [("is_fork", .bool c.is_fork),
        ("upstream_url", jsonOfOptStr c.upstream_url),
        ("upstream_owner", jsonOfOptStr c.upstream_owner),
        ("upstream_repo", jsonOfOptStr c.upstream_repo),
        ("force_fork_mode", jsonOfOptBool c.force_fork_mode)]

/-! ## Namespace `Ref`: src/reference/python/types.py

Timestamps in this module are plain ISO-8601 `str` fields. -/

namespace Ref

/-- A completed task in the history (`TaskHistoryEntry`). -/
structure TaskHistoryEntry where
  name : String
  task : String
  branch : String
  pr_url : Option String
  pr_number : Option Int
  status : TaskStatus
  summary : Option String
  failure_reason : Option String
  created_at : String
  completed_at : Option String
  deriving DecidableEq, Repr

/-- An agent's state (`Agent`). -/
structure Agent where
  type : AgentType
  worktree_path : String
  tmux_window : String
  session_id : String
  pid : Int
  task : Option String
  summary : Option String
  failure_reason : Option String
  created_at : String
  last_nudge : Option String
  ready_for_cleanup : Option Bool
  deriving DecidableEq, Repr

/-- A tracked repository's state (`Repository`). The Python field
`agents : dict[str, Agent]` is modelled as an association list in insertion
order; Python dict construction guarantees distinct keys. -/
structure Repository where
  github_url : String
  tmux_session : String
  agents : List (String × Agent)
  task_history : Option (List TaskHistoryEntry)
  merge_queue_config : Option MergeQueueConfig
  pr_shepherd_config : Option PRShepherdConfig
  fork_config : Option ForkConfig
  target_branch : Option String
  deriving DecidableEq, Repr

/-- The entire daemon state (`State`). -/
structure State where
  repos : List (String × Repository)
  current_repo : Option String
  deriving DecidableEq, Repr

/-- An in-memory `Repository` is valid when its agent map has distinct names,
which Python dict construction guarantees. -/
def Repository.keysNodup (r : Repository) : Prop :=
  (r.agents.map Prod.fst).Nodup

/-- An in-memory `State` is valid when its repository map and every agent map
have distinct keys, which Python dict construction guarantees. -/
def State.keysNodup (s : State) : Prop :=
  (s.repos.map Prod.fst).Nodup ∧ ∀ p ∈ s.repos, Repository.keysNodup p.2

instance (r : Repository) : Decidable r.keysNodup := by
  unfold Repository.keysNodup; infer_instance

instance (s : State) : Decidable s.keysNodup := by
  unfold State.keysNodup; infer_instance

def TaskHistoryEntry.toJson (e : TaskHistoryEntry) : Json :=
  .obj [("name", .str e.name),
        ("task", .str e.task),
        ("branch", .str e.branch),
        ("pr_url", jsonOfOptStr e.pr_url),
        ("pr_number", jsonOfOptInt e.pr_number),
        ("status", .str e.status.toWire),
        ("summary", jsonOfOptStr e.summary),
        ("failure_reason", jsonOfOptStr e.failure_reason),
        ("created_at", .str e.created_at),
        ("completed_at", jsonOfOptStr e.completed_at)]

def Agent.toJson (a : Agent) : Json :=
  .obj [("type", .str a.type.toWire),
        ("worktree_path", .str a.worktree_path),
        ("tmux_window", .str a.tmux_window),
        ("session_id", .str a.session_id),
        ("pid", .num a.pid),
        ("task", jsonOfOptStr a.task),
        ("summary", jsonOfOptStr a.summary),
        ("failure_reason", jsonOfOptStr a.failure_reason),
        ("created_at", .str a.created_at),
        ("last_nudge", jsonOfOptStr a.last_nudge),
        ("ready_for_cleanup", jsonOfOptBool a.ready_for_cleanup)]

def Repository.toJson (r : Repository) : Json :=
  .obj [("github_url", .str r.github_url),
        ("tmux_session", .str r.tmux_session),
        ("agents", .obj (r.agents.map (fun p => (p.1, p.2.toJson)))),
        ("task_history",
          jsonOfOpt (fun l => .arr (l.map TaskHistoryEntry.toJson)) r.task_history),
        ("merge_queue_config", jsonOfOpt MergeQueueConfig.toJson r.merge_queue_config),
        ("pr_shepherd_config", jsonOfOpt PRShepherdConfig.toJson r.pr_shepherd_config),
        ("fork_config", jsonOfOpt ForkConfig.toJson r.fork_config),
        ("target_branch", jsonOfOptStr r.target_branch)]

def State.toJson (s : State) : Json :=
  .obj [("repos", .obj (s.repos.map (fun p => (p.1, p.2.toJson)))),
        ("current_repo", jsonOfOptStr s.current_repo)]

end Ref

namespace Ref

/-- Embedding of `PERSISTENT_AGENT_TYPES` from src/reference/python/types.py. -/
def PERSISTENT_AGENT_TYPES : List AgentType :=
  [.supervisor, .mergeQueue, .prShepherd, .workspace, .genericPersistent]

/-- Embedding of `is_persistent_agent_type`: membership in `PERSISTENT_AGENT_TYPES`. -/
def is_persistent_agent_type (agent_type : AgentType) : Bool :=
  PERSISTENT_AGENT_TYPES.contains agent_type

/-- Embedding of `default_merge_queue_config()`. -/
def default_merge_queue_config : MergeQueueConfig :=
  { enabled := true, track_mode := .all }

/-- Embedding of `default_pr_shepherd_config()`. -/
def default_pr_shepherd_config : PRShepherdConfig :=
  { enabled := true, track_mode := .author }

/-- Embedding of `MergeQueueConfig.model_validate`: both fields are required (no
defaults in this module). -/
def validateMergeQueueConfig (j : Json) : Option MergeQueueConfig :=
  match j with
  | .obj fs => do
      let e ← reqField fs "enabled" vBool
      let t ← reqField fs "track_mode" vTrackMode
      pure ⟨e, t⟩
  | _ => none

/-- Embedding of `PRShepherdConfig.model_validate`: both fields are required. -/
def validatePRShepherdConfig (j : Json) : Option PRShepherdConfig :=
  match j with
  | .obj fs => do
      let e ← reqField fs "enabled" vBool
      let t ← reqField fs "track_mode" vTrackMode
      pure ⟨e, t⟩
  | _ => none

/-- Embedding of `ForkConfig.model_validate`: `is_fork` is required, the rest optional. -/
def validateForkConfig (j : Json) : Option ForkConfig :=
  match j with
  | .obj fs => do
      let isf ← reqField fs "is_fork" vBool
      let uu ← optField fs "upstream_url" vStr
      let uo ← optField fs "upstream_owner" vStr
      let ur ← optField fs "upstream_repo" vStr
      let ffm ← optField fs "force_fork_mode" vBool
      pure ⟨isf, uu, uo, ur, ffm⟩
  | _ => none

/-- Embedding of `TaskHistoryEntry.model_validate`. -/
def validateTaskHistoryEntry (j : Json) : Option TaskHistoryEntry :=
  match j with
  | .obj fs => do
      let nm ← reqField fs "name" vStr
      let tk ← reqField fs "task" vStr
      let br ← reqField fs "branch" vStr
      let pu ← optField fs "pr_url" vStr
      let pn ← optField fs "pr_number" vInt
      let st ← reqField fs "status" vTaskStatus
      let sm ← optField fs "summary" vStr
      let fr ← optField fs "failure_reason" vStr
      let ca ← reqField fs "created_at" vStr
      let co ← optField fs "completed_at" vStr
      pure ⟨nm, tk, br, pu, pn, st, sm, fr, ca, co⟩
  | _ => none

/-- Embedding of `Agent.model_validate`: all scalar fields required except the
`T | None = None` optionals; `created_at` is a required `str`. -/
def validateAgent (j : Json) : Option Agent :=
  match j with
  | .obj fs => do
      let ty ← reqField fs "type" vAgentType
      let wp ← reqField fs "worktree_path" vStr
      let tw ← reqField fs "tmux_window" vStr
      let si ← reqField fs "session_id" vStr
      let pid ← reqField fs "pid" vInt
      let tk ← optField fs "task" vStr
      let sm ← optField fs "summary" vStr
      let fr ← optField fs "failure_reason" vStr
      let ca ← reqField fs "created_at" vStr
      let ln ← optField fs "last_nudge" vStr
      let rc ← optField fs "ready_for_cleanup" vBool
      pure ⟨ty, wp, tw, si, pid, tk, sm, fr, ca, ln, rc⟩
  | _ => none

/-- Validation of the `dict[str, Agent]` field: the JSON object becomes a
Python dict (`dedupKeys`), then every value is validated as an `Agent`. -/
def validateAgentMap (j : Json) : Option (List (String × Agent)) :=
  match j with
  | .obj fs => (dedupKeys fs).mapM (fun kv => (validateAgent kv.2).map ((kv.1, ·)))
  | _ => none

/-- Validation of the `list[TaskHistoryEntry]` field. -/
def validateTaskHistoryList (j : Json) : Option (List TaskHistoryEntry) :=
  match j with
  | .arr xs => xs.mapM validateTaskHistoryEntry
  | _ => none

/-- Embedding of `Repository.model_validate`. -/
def validateRepository (j : Json) : Option Repository :=
  match j with
  | .obj fs => do
      let gh ← reqField fs "github_url" vStr
      let ts ← reqField fs "tmux_session" vStr
      let ag ← reqField fs "agents" validateAgentMap
      let th ← optField fs "task_history" validateTaskHistoryList
      let mq ← optField fs "merge_queue_config" validateMergeQueueConfig
      let ps ← optField fs "pr_shepherd_config" validatePRShepherdConfig
      let fc ← optField fs "fork_config" validateForkConfig
      let tb ← optField fs "target_branch" vStr
      pure ⟨gh, ts, ag, th, mq, ps, fc, tb⟩
  | _ => none

/-- Validation of the `dict[str, Repository]` field. -/
def validateRepoMap (j : Json) : Option (List (String × Repository)) :=
  match j with
  | .obj fs => (dedupKeys fs).mapM (fun kv => (validateRepository kv.2).map ((kv.1, ·)))
  | _ => none

/-- Embedding of `State.model_validate`: `repos` is required, `current_repo` optional. -/
def validateState (j : Json) : Option State :=
  match j with
  | .obj fs => do
      let rp ← reqField fs "repos" validateRepoMap
      let cr ← optField fs "current_repo" vStr
      pure ⟨rp, cr⟩
  | _ => none

/-- Embedding of `parse_state(data)`: validate, raising on invalid input (`none` models
the raised `ValidationError`). -/
def parse_state (data : Json) : Option State :=
  validateState data

/-- Embedding of `safe_parse_state(data)`: validate, returning `None` on invalid input.
The `try/except` around `model_validate` makes it the same function as
`parse_state` under the `Option` model of exceptions. -/
def safe_parse_state (data : Json) : Option State :=
  validateState data

/-- Embedding of `parse_repository(data)`. -/
def parse_repository (data : Json) : Option Repository :=
  validateRepository data

/-- Embedding of `parse_agent(data)`. -/
def parse_agent (data : Json) : Option Agent :=
  validateAgent data

end Ref

/-! ## Namespace `Tool`: src/templates/python-tool/src/multiclaude_tool/types.py

Same models, but with field defaults (`enabled=True`, `track_mode`,
`is_fork=False`, `pid=0`, `agents={}`, `repos={}`) and timestamps typed
`datetime` instead of `str`. pydantic's `datetime` validator is outside the
repository; it is abstracted as a function parameter
`pd : Json → Option PyDateTime` to every validator that needs it. -/

/-- An abstract Python `datetime.datetime` value. -/
structure PyDateTime where
  iso : String
  deriving DecidableEq, Repr

namespace Tool

/-- A completed task in the history (`TaskHistoryEntry`), timestamps as
`datetime`. -/
structure TaskHistoryEntry where
  name : String
  task : String
  branch : String
  pr_url : Option String
  pr_number : Option Int
  status : TaskStatus
  summary : Option String
  failure_reason : Option String
  created_at : PyDateTime
  completed_at : Option PyDateTime
  deriving DecidableEq, Repr

/-- An agent's state (`Agent`), timestamps as `datetime`. -/
structure Agent where
  type : AgentType
  worktree_path : String
  tmux_window : String
  session_id : String
  pid : Int
  task : Option String
  summary : Option String
  failure_reason : Option String
  created_at : PyDateTime
  last_nudge : Option PyDateTime
  ready_for_cleanup : Option Bool
  deriving DecidableEq, Repr

/-- A tracked repository's state (`Repository`). -/
structure Repository where
  github_url : String
  tmux_session : String
  agents : List (String × Agent)
  task_history : Option (List TaskHistoryEntry)
  merge_queue_config : Option MergeQueueConfig
  pr_shepherd_config : Option PRShepherdConfig
  fork_config : Option ForkConfig
  target_branch : Option String
  deriving DecidableEq, Repr

/-- The entire daemon state (`State`). -/
structure State where
  repos : List (String × Repository)
  current_repo : Option String
  deriving DecidableEq, Repr

/-- Embedding of `State()`: the state built from the model's defaults
(`repos={}`, `current_repo=None`). -/
def State.default : State := ⟨[], none⟩

def Repository.keysNodup (r : Repository) : Prop :=
  (r.agents.map Prod.fst).Nodup

def State.keysNodup (s : State) : Prop :=
  (s.repos.map Prod.fst).Nodup ∧ ∀ p ∈ s.repos, Repository.keysNodup p.2

instance (r : Repository) : Decidable r.keysNodup := by
  unfold Repository.keysNodup; infer_instance

instance (s : State) : Decidable s.keysNodup := by
  unfold State.keysNodup; infer_instance

/-- Embedding of `PERSISTENT_AGENT_TYPES` from multiclaude_tool/types.py. -/
def PERSISTENT_AGENT_TYPES : List AgentType :=
  [.supervisor, .mergeQueue, .prShepherd, .workspace, .genericPersistent]

/-- Embedding of `is_persistent_agent_type` from multiclaude_tool/types.py. -/
def is_persistent_agent_type (agent_type : AgentType) : Bool :=
  PERSISTENT_AGENT_TYPES.contains agent_type

/-- Embedding of `MergeQueueConfig.model_validate` in the template module: both fields
carry defaults (`enabled=True`, `track_mode="all"`). -/
def validateMergeQueueConfig (j : Json) : Option MergeQueueConfig :=
  match j with
  | .obj fs => do
      let e ← defField fs "enabled" vBool true
      let t ← defField fs "track_mode" vTrackMode .all
      pure ⟨e, t⟩
  | _ => none

/-- Embedding of `PRShepherdConfig.model_validate` in the template module:
defaults `enabled=True`, `track_mode="author"`. -/
def validatePRShepherdConfig (j : Json) : Option PRShepherdConfig :=
  match j with
  | .obj fs => do
      let e ← defField fs "enabled" vBool true
      let t ← defField fs "track_mode" vTrackMode .author
      pure ⟨e, t⟩
  | _ => none

/-- Embedding of `ForkConfig.model_validate` in the template module:
default `is_fork=False`. -/
def validateForkConfig (j : Json) : Option ForkConfig :=
  match j with
  | .obj fs => do
      let isf ← defField fs "is_fork" vBool false
      let uu ← optField fs "upstream_url" vStr
      let uo ← optField fs "upstream_owner" vStr
      let ur ← optField fs "upstream_repo" vStr
      let ffm ← optField fs "force_fork_mode" vBool
      pure ⟨isf, uu, uo, ur, ffm⟩
  | _ => none

/-- Embedding of `TaskHistoryEntry.model_validate` in the template module; `pd` is
pydantic's `datetime` validator. -/
def validateTaskHistoryEntry (pd : Json → Option PyDateTime) (j : Json) :
    Option TaskHistoryEntry :=
  match j with
  | .obj fs => do
      let nm ← reqField fs "name" vStr
      let tk ← reqField fs "task" vStr
      let br ← reqField fs "branch" vStr
      let pu ← optField fs "pr_url" vStr
      let pn ← optField fs "pr_number" vInt
      let st ← reqField fs "status" vTaskStatus
      let sm ← optField fs "summary" vStr
      let fr ← optField fs "failure_reason" vStr
      let ca ← reqField fs "created_at" pd
      let co ← optField fs "completed_at" pd
      pure ⟨nm, tk, br, pu, pn, st, sm, fr, ca, co⟩
  | _ => none

/-- Embedding of `Agent.model_validate` in the template module: `pid` defaults to `0`,
timestamps validated by `pd`. -/
def validateAgent (pd : Json → Option PyDateTime) (j : Json) : Option Agent :=
  match j with
  | .obj fs => do
      let ty ← reqField fs "type" vAgentType
      let wp ← reqField fs "worktree_path" vStr
      let tw ← reqField fs "tmux_window" vStr
      let si ← reqField fs "session_id" vStr
      let pid ← defField fs "pid" vInt 0
      let tk ← optField fs "task" vStr
      let sm ← optField fs "summary" vStr
      let fr ← optField fs "failure_reason" vStr
      let ca ← reqField fs "created_at" pd
      let ln ← optField fs "last_nudge" pd
      let rc ← optField fs "ready_for_cleanup" vBool
      pure ⟨ty, wp, tw, si, pid, tk, sm, fr, ca, ln, rc⟩
  | _ => none

def validateAgentMap (pd : Json → Option PyDateTime) (j : Json) :
    Option (List (String × Agent)) :=
  match j with
  | .obj fs => (dedupKeys fs).mapM (fun kv => (validateAgent pd kv.2).map ((kv.1, ·)))
  | _ => none

def validateTaskHistoryList (pd : Json → Option PyDateTime) (j : Json) :
    Option (List TaskHistoryEntry) :=
  match j with
  | .arr xs => xs.mapM (validateTaskHistoryEntry pd)
  | _ => none

/-- Embedding of `Repository.model_validate` in the template module: `agents` defaults to
the empty dict (`Field(default_factory=dict)`). -/
def validateRepository (pd : Json → Option PyDateTime) (j : Json) :
    Option Repository :=
  match j with
  | .obj fs => do
      let gh ← reqField fs "github_url" vStr
      let ts ← reqField fs "tmux_session" vStr
      let ag ← defField fs "agents" (validateAgentMap pd) []
      let th ← optField fs "task_history" (validateTaskHistoryList pd)
      let mq ← optField fs "merge_queue_config" validateMergeQueueConfig
      let ps ← optField fs "pr_shepherd_config" validatePRShepherdConfig
      let fc ← optField fs "fork_config" validateForkConfig
      let tb ← optField fs "target_branch" vStr
      pure ⟨gh, ts, ag, th, mq, ps, fc, tb⟩
  | _ => none

def validateRepoMap (pd : Json → Option PyDateTime) (j : Json) :
    Option (List (String × Repository)) :=
  match j with
  | .obj fs => (dedupKeys fs).mapM (fun kv => (validateRepository pd kv.2).map ((kv.1, ·)))
  | _ => none

/-- Embedding of `State.model_validate` in the template module: `repos` defaults to the
empty dict. -/
def validateState (pd : Json → Option PyDateTime) (j : Json) : Option State :=
  match j with
  | .obj fs => do
      let rp ← defField fs "repos" (validateRepoMap pd) []
      let cr ← optField fs "current_repo" vStr
      pure ⟨rp, cr⟩
  | _ => none

end Tool

/-! ## src/templates/python-tool/src/multiclaude_tool/state.py

The filesystem is abstracted as a `FileState`: the state file is missing,
present but not valid JSON (a `json.JSONDecodeError` from `json.loads`), or
present with a parsed JSON document. Exception messages interpolate library
exception text; that text is abstracted to the literal prefix the source
writes. -/

namespace Tool

/-- What `StateReader` finds at `state_path`. -/
inductive FileState where
  | missing
  | badJson
  | json (j : Json)

/-- Embedding of `StateError`: raised when state reading fails. -/
inductive StateError where
  | stateError (msg : String)
  deriving DecidableEq, Repr

/-- Embedding of `StateReader.exists()`. -/
def StateReader.fileExists (fs : FileState) : Bool :=
  match fs with
  | .missing => false
  | _ => true

/-- Embedding of `StateReader.read()`: raise `StateError` when the file is missing, when
its contents are not valid JSON, or when they do not validate as `State`. -/
def StateReader.read (state_path : String) (pd : Json → Option PyDateTime)
    (fs : FileState) : Except StateError State :=
  match fs with
  | .missing => .error (.stateError ("State file not found: " ++ state_path))
  | .badJson => .error (.stateError "Invalid JSON in state file")
  | .json j =>
      match validateState pd j with
      | some s => .ok s
      | none => .error (.stateError "Failed to parse state")

/-- Embedding of `StateReader.read_or_empty()`: return `State()` when the file does not
exist, otherwise delegate to `read`. -/
def StateReader.read_or_empty (state_path : String)
    (pd : Json → Option PyDateTime) (fs : FileState) : Except StateError State :=
  if StateReader.fileExists fs = false then .ok State.default
  else StateReader.read state_path pd fs

/-- Embedding of `get_current_repo(state)`. -/
def get_current_repo (state : State) : Option String :=
  state.current_repo

/-- A record produced by `get_active_workers`: the dict
`{"repo": ..., "name": ..., "task": ..., "created_at": ...}`. -/
structure WorkerInfo where
  repo : String
  name : String
  task : Option String
  created_at : PyDateTime
  deriving DecidableEq, Repr

/-- Embedding of `get_active_workers(state)`: the nested loop over
`state.repos.items()` and `repo.agents.items()` appending a record for each
agent with `agent.type == "worker" and agent.pid > 0`. -/
def get_active_workers (state : State) : List WorkerInfo :=
  state.repos.flatMap fun rp =>
    rp.2.agents.filterMap fun ap =>
      if ap.2.type = .worker ∧ 0 < ap.2.pid then
        some ⟨rp.1, ap.1, ap.2.task, ap.2.created_at⟩
      else none

end Tool

/-! ## src/templates/python-tool/src/multiclaude_tool/client.py

Socket I/O is abstracted as a `ReplyOutcome`: what happens on the wire once
the socket file exists. `PyError` distinguishes the exception classes the
client code can raise: `DaemonError` (raised by the client itself),
pydantic `ValidationError` (propagates uncaught out of `model_validate` /
`model_validate_json`), and `AttributeError`/`TypeError` (propagate out of
Python attribute access and iteration). -/

namespace Tool

/-- Exceptions observable from a `DaemonClient` call. -/
inductive PyError where
  | daemonError (msg : String)
  | validationError
  | attributeError
  | typeError
  deriving DecidableEq, Repr

/-- Embedding of `SocketResponse`: `success`, optional `data`, optional `error`. -/
structure SocketResponse where
  success : Bool
  data : Option Json
  error : Option String
  deriving Repr

/-- The transport outcome once the socket file exists: an `OSError` during
connect/send/recv, an empty response, a response that fails
`SocketResponse.model_validate_json`, or a validated response. -/
inductive ReplyOutcome where
  | ioError (msg : String)
  | emptyResponse
  | badResponse
  | response (r : SocketResponse)

/-- Python `x or default` on an optional string: `None` and the empty string
are falsy. -/
def pyOr (o : Option String) (dflt : String) : String :=
  match o with
  | none => dflt
  | some s => if s = "" then dflt else s

/-- Embedding of `DaemonClient._send_request`: raise `DaemonError` when the socket file
does not exist; otherwise the transport outcome decides the result exactly
as the `try/except` does (OSError and empty response become `DaemonError`;
an invalid response document raises out of `model_validate_json`). -/
def DaemonClient.send_request (socket_path : String) (socketExists : Bool)
    (outcome : ReplyOutcome) : Except PyError SocketResponse :=
  if socketExists = false then
    .error (.daemonError ("Socket not found: " ++ socket_path))
  else
    match outcome with
    | .ioError m => .error (.daemonError ("Socket error: " ++ m))
    | .emptyResponse => .error (.daemonError "Empty response from daemon")
    | .badResponse => .error .validationError
    | .response r => .ok r

/-- Embedding of `DaemonClient._require_success`: raise
`DaemonError(response.error or "Unknown error")` unless `success`. -/
def DaemonClient.require_success (response : SocketResponse) :
    Except PyError (Option Json) :=
  if response.success then .ok response.data
  else .error (.daemonError (pyOr response.error "Unknown error"))

/-- Embedding of `DaemonClient.ping()`: `response.success`, with `DaemonError` caught and
turned into `False`; any other exception propagates. -/
def DaemonClient.ping (socket_path : String) (socketExists : Bool)
    (outcome : ReplyOutcome) : Except PyError Bool :=
  match DaemonClient.send_request socket_path socketExists outcome with
  | .ok response => .ok response.success
  | .error (.daemonError _) => .ok false
  | .error e => .error e

/-- Embedding of `DaemonStatus.model_validate`: all five fields required. -/
def validateDaemonStatus (j : Json) : Option (Bool × Int × Int × Int × String) :=
  match j with
  | .obj fs => do
      let r ← reqField fs "running" vBool
      let p ← reqField fs "pid" vInt
      let rc ← reqField fs "repos" vInt
      let ac ← reqField fs "agents" vInt
      let sp ← reqField fs "socket_path" vStr
      pure (r, p, rc, ac, sp)
  | _ => none

/-- Run a pydantic `model_validate` on the `data` a handler returned,
propagating `ValidationError` on failure (`model_validate(None)` also
fails). -/
def modelValidate {α : Type} (v : Json → Option α) (data : Option Json) :
    Except PyError α :=
  match data with
  | none => .error .validationError
  | some j =>
      match v j with
      | some a => .ok a
      | none => .error .validationError

/-- Embedding of `DaemonClient.status()`. -/
def DaemonClient.status (socket_path : String) (socketExists : Bool)
    (outcome : ReplyOutcome) : Except PyError (Bool × Int × Int × Int × String) := do
  let response ← DaemonClient.send_request socket_path socketExists outcome
  let data ← DaemonClient.require_success response
  modelValidate validateDaemonStatus data

/-- Embedding of `DaemonClient.get_state()`. -/
def DaemonClient.get_state (socket_path : String) (socketExists : Bool)
    (outcome : ReplyOutcome) (pd : Json → Option PyDateTime) :
    Except PyError State := do
  let response ← DaemonClient.send_request socket_path socketExists outcome
  let data ← DaemonClient.require_success response
  modelValidate (validateState pd) data

/-- Embedding of `DaemonClient.get_repo(name)`. -/
def DaemonClient.get_repo (socket_path : String) (socketExists : Bool)
    (outcome : ReplyOutcome) (pd : Json → Option PyDateTime) (name : String) :
    Except PyError Repository :=
  let _request := Json.obj [("command", .str "get_repo"),
    ("args", .obj [("name", .str name)])]
  match DaemonClient.send_request socket_path socketExists outcome with
  | .error e => .error e
  | .ok response =>
      match DaemonClient.require_success response with
      | .error e => .error e
      | .ok data => modelValidate (validateRepository pd) data

/-- Python `data.get(key, default)`: `AttributeError` unless `data` is a
dict. -/
def pyDictGet (data : Option Json) (key : String) (dflt : Json) :
    Except PyError Json :=
  match data with
  | some (.obj fs) => .ok ((objGet fs key).getD dflt)
  | _ => .error .attributeError

/-- Python `str(x)` on a JSON-shaped value. The exact rendering of
containers (`repr`) is abstracted; the claims only touch the string case. -/
def pyStr : Json → String
  | .null => "None"
  | .bool true => "True"
  | .bool false => "False"
  | .num n => toString n
  | .str s => s
  | .arr _ => "<list repr>"
  | .obj _ => "<dict repr>"

/-- Embedding of `DaemonClient.spawn_worker(task, repo, branch, push_to)`: builds the
args dict, sends `spawn_worker`, and returns `str(data.get("name", ""))`. -/
def DaemonClient.spawn_worker (socket_path : String) (socketExists : Bool)
    (outcome : ReplyOutcome) (task : String) (repo branch push_to : Option String) :
    Except PyError String :=
  let args := [("task", Json.str task)]
      ++ (match repo with | some r => [("repo", Json.str r)] | none => [])
      ++ (match branch with | some b => [("branch", Json.str b)] | none => [])
      ++ (match push_to with | some p => [("push_to", Json.str p)] | none => [])
  let _request := Json.obj [("command", .str "spawn_worker"), ("args", .obj args)]
  match DaemonClient.send_request socket_path socketExists outcome with
  | .error e => .error e
  | .ok response =>
      match DaemonClient.require_success response with
      | .error e => .error e
      | .ok data =>
          match pyDictGet data "name" (.str "") with
          | .error e => .error e
          | .ok v => .ok (pyStr v)

/-- Python truthiness of a JSON-shaped value (`data or []`). -/
def pyTruthy : Json → Bool
  | .null => false
  | .bool b => b
  | .num n => n ≠ 0
  | .str s => s ≠ ""
  | .arr xs => !xs.isEmpty
  | .obj fs => !(dedupKeys fs).isEmpty

/-- Python iteration over `data` (a JSON-shaped value): lists yield their
elements, dicts their keys, strings their characters; other values raise
`TypeError`. -/
def pyIter : Json → Except PyError (List Json)
  | .arr xs => .ok xs
  | .obj fs => .ok ((dedupKeys fs).map (fun kv => Json.str kv.1))
  | .str s => .ok (s.toList.map (fun c => Json.str (String.singleton c)))
  | _ => .error .typeError

/-- Embedding of `DaemonClient.task_history(repo, limit, status)`: sends `task_history`
and validates each entry of `data or []` as a `TaskHistoryEntry`. -/
def DaemonClient.task_history (socket_path : String) (socketExists : Bool)
    (outcome : ReplyOutcome) (pd : Json → Option PyDateTime)
    (repo : Option String) (limit : Option Int) (status : Option String) :
    Except PyError (List TaskHistoryEntry) :=
  let args := (match repo with | some r => [("repo", Json.str r)] | none => [])
      ++ (match limit with | some l => [("limit", Json.num l)] | none => [])
      ++ (match status with | some s => [("status", Json.str s)] | none => [])
  let _request := Json.obj [("command", .str "task_history"), ("args", .obj args)]
  match DaemonClient.send_request socket_path socketExists outcome with
  | .error e => .error e
  | .ok response =>
      match DaemonClient.require_success response with
      | .error e => .error e
      | .ok data =>
          let iterable : Except PyError (List Json) :=
            match data with
            | none => .ok []
            | some j => if pyTruthy j then pyIter j else .ok []
          match iterable with
          | .error e => .error e
          | .ok elems =>
              match elems.mapM (validateTaskHistoryEntry pd) with
              | some entries => .ok entries
              | none => .error .validationError

/-- Embedding of `DaemonClient.send_message(to, body, from_agent)`: returns
`str(data.get("id", ""))`. -/
def DaemonClient.send_message (socket_path : String) (socketExists : Bool)
    (outcome : ReplyOutcome) (target body from_agent : String) :
    Except PyError String :=
  let _request := Json.obj [("command", .str "send_message"),
    ("args", .obj [("to", .str target), ("body", .str body), ("from", .str from_agent)])]
  match DaemonClient.send_request socket_path socketExists outcome with
  | .error e => .error e
  | .ok response =>
      match DaemonClient.require_success response with
      | .error e => .error e
      | .ok data =>
          match pyDictGet data "id" (.str "") with
          | .error e => .error e
          | .ok v => .ok (pyStr v)

end Tool

/-! ## Concrete example values (used to instantiate theorems) -/

/-- A concrete worker agent (reference module). -/
def exAgent : Ref.Agent :=
  { type := .worker, worktree_path := "/tmp/wt", tmux_window := "mc:1",
    session_id := "sess-1", pid := 4242, task := some "fix the bug",
    summary := none, failure_reason := none,
    created_at := "2024-01-01T00:00:00Z", last_nudge := none,
    ready_for_cleanup := some true }

/-- A concrete supervisor agent (reference module). -/
def exSupervisor : Ref.Agent :=
  { type := .supervisor, worktree_path := "/tmp/sup", tmux_window := "mc:0",
    session_id := "sess-0", pid := 0, task := none, summary := none,
    failure_reason := none, created_at := "2024-01-01T00:00:00Z",
    last_nudge := none, ready_for_cleanup := none }

/-- A concrete repository (reference module). -/
def exRepo : Ref.Repository :=
  { github_url := "https://github.com/a/b", tmux_session := "mc-b",
    agents := [("quick-fox", exAgent), ("supervisor", exSupervisor)],
    task_history := none,
    merge_queue_config := some Ref.default_merge_queue_config,
    pr_shepherd_config := none, fork_config := none,
    target_branch := some "main" }

/-- A concrete state (reference module). -/
def exState : Ref.State :=
  { repos := [("b", exRepo)], current_repo := some "b" }

/-- A concrete datetime value. -/
def exDT : PyDateTime := { iso := "2024-01-01T00:00:00Z" }

/-- A concrete running worker agent (template module). -/
def exToolWorker : Tool.Agent :=
  { type := .worker, worktree_path := "/tmp/wt", tmux_window := "mc:1",
    session_id := "sess-1", pid := 4242, task := some "fix the bug",
    summary := none, failure_reason := none, created_at := exDT,
    last_nudge := none, ready_for_cleanup := none }

/-- A concrete repository (template module). -/
def exToolRepo : Tool.Repository :=
  { github_url := "https://github.com/a/b", tmux_session := "mc-b",
    agents := [("quick-fox", exToolWorker)], task_history := none,
    merge_queue_config := none, pr_shepherd_config := none,
    fork_config := none, target_branch := none }

/-- A concrete state (template module). -/
def exToolState : Tool.State :=
  { repos := [("b", exToolRepo)], current_repo := some "b" }

/-! ## Lemmas about Python dict construction -/

theorem insertKey_keys_of_mem {acc : List (String × Json)}
    {kv : String × Json} (h : kv.1 ∈ acc.map Prod.fst) :
    (insertKey acc kv).map Prod.fst = acc.map Prod.fst := by
  have hany : acc.any (fun p => p.1 = kv.1) = true := by
    simp only [List.any_eq_true, decide_eq_true_eq]
    rcases List.mem_map.mp h with ⟨p, hp, hpk⟩
    exact ⟨p, hp, hpk⟩
  simp only [insertKey, hany, if_true, List.map_map]
  apply List.map_congr_left
  intro p _
  by_cases hk : p.1 = kv.1 <;> simp [hk]

theorem insertKey_keys_of_not_mem {acc : List (String × Json)}
    {kv : String × Json} (h : kv.1 ∉ acc.map Prod.fst) :
    (insertKey acc kv).map Prod.fst = acc.map Prod.fst ++ [kv.1] := by
  have hany : acc.any (fun p => p.1 = kv.1) = false := by
    simp only [List.any_eq_false, decide_eq_true_eq]
    intro p hp hpk
    exact h (List.mem_map.mpr ⟨p, hp, hpk⟩)
  simp [insertKey, hany]

theorem insertKey_keys_nodup {acc : List (String × Json)}
    {kv : String × Json} (h : (acc.map Prod.fst).Nodup) :
    ((insertKey acc kv).map Prod.fst).Nodup := by
  by_cases hm : kv.1 ∈ acc.map Prod.fst
  · rw [insertKey_keys_of_mem hm]; exact h
  · rw [insertKey_keys_of_not_mem hm]
    simpa using List.Nodup.append h (List.nodup_singleton kv.1)
      (by simpa using hm)

theorem dedupKeys_go_nodup (l : List (String × Json)) :
    ∀ acc : List (String × Json), (acc.map Prod.fst).Nodup →
      ((l.foldl insertKey acc).map Prod.fst).Nodup := by
  induction l with
  | nil => intro acc h; simpa using h
  | cons kv t ih =>
      intro acc h
      exact ih (insertKey acc kv) (insertKey_keys_nodup h)

/-- The keys of a Python dict are distinct. -/
theorem dedupKeys_keys_nodup (l : List (String × Json)) :
    ((dedupKeys l).map Prod.fst).Nodup :=
  dedupKeys_go_nodup l [] (by simp)

theorem dedupKeys_go_eq_append (l : List (String × Json)) :
    ∀ acc : List (String × Json),
      ((acc.map Prod.fst ++ l.map Prod.fst).Nodup) →
      l.foldl insertKey acc = acc ++ l := by
  induction l with
  | nil => intro acc _; simp
  | cons kv t ih =>
      intro acc h
      rw [List.map_cons] at h
      have hdisj : (acc.map Prod.fst).Disjoint (kv.1 :: t.map Prod.fst) :=
        (List.nodup_append.mp h).2.2
      have hnotmem : kv.1 ∉ acc.map Prod.fst := fun hm =>
        hdisj hm (List.mem_cons_self _ _)
      have hins : insertKey acc kv = acc ++ [kv] := by
        have hany : acc.any (fun p => p.1 = kv.1) = false := by
          simp only [List.any_eq_false, decide_eq_true_eq]
          intro p hp hpk
          exact hnotmem (List.mem_map.mpr ⟨p, hp, hpk⟩)
        simp [insertKey, hany]
      have hrearr : ((acc ++ [kv]).map Prod.fst ++ t.map Prod.fst).Nodup := by
        simpa [List.append_assoc] using h
      calc (kv :: t).foldl insertKey acc
          = t.foldl insertKey (insertKey acc kv) := rfl
        _ = t.foldl insertKey (acc ++ [kv]) := by rw [hins]
        _ = (acc ++ [kv]) ++ t := ih (acc ++ [kv]) hrearr
        _ = acc ++ kv :: t := by simp

/-- A field list whose keys are already distinct is its own dict: `dedupKeys`
is the identity there. -/
theorem dedupKeys_eq_self {l : List (String × Json)}
    (h : (l.map Prod.fst).Nodup) : dedupKeys l = l := by
  simpa using dedupKeys_go_eq_append l [] (by simpa using h)

/-! ## Helper lemmas about field validation -/

theorem vAgentType_toWire (t : AgentType) : vAgentType (.str t.toWire) = some t := by
  cases t <;> rfl

theorem vTrackMode_toWire (t : TrackMode) : vTrackMode (.str t.toWire) = some t := by
  cases t <;> rfl

theorem vTaskStatus_toWire (t : TaskStatus) : vTaskStatus (.str t.toWire) = some t := by
  cases t <;> rfl

theorem reqField_of {α : Type} {fs : List (String × Json)} {k : String} {j : Json}
    (v : Json → Option α) (h : objGet fs k = some j) : reqField fs k v = v j := by
  simp [reqField, h]

theorem reqField_eq_some {α : Type} {fs : List (String × Json)} {k : String}
    {v : Json → Option α} {a : α} (h : reqField fs k v = some a) :
    ∃ j, objGet fs k = some j ∧ v j = some a := by
  unfold reqField at h
  cases hg : objGet fs k with
  | none => rw [hg] at h; exact absurd h (by simp)
  | some j => rw [hg] at h; exact ⟨j, rfl, h⟩

theorem defField_of_absent {α : Type} {fs : List (String × Json)} {k : String}
    (v : Json → Option α) (d : α) (h : objGet fs k = none) :
    defField fs k v d = some d := by
  simp [defField, h]

theorem defField_of_present {α : Type} {fs : List (String × Json)} {k : String}
    {j : Json} (v : Json → Option α) (d : α) (h : objGet fs k = some j) :
    defField fs k v d = v j := by
  simp [defField, h]

/-- A required field that validates also validates as a defaulted field,
with the same value. -/
theorem reqField_imp_defField {α : Type} {fs : List (String × Json)} {k : String}
    {v : Json → Option α} {a : α} (d : α) (h : reqField fs k v = some a) :
    defField fs k v d = some a := by
  obtain ⟨j, hg, hv⟩ := reqField_eq_some h
  rw [defField_of_present v d hg, hv]

theorem optField_eq_of_ne_null {α : Type} {fs : List (String × Json)} {k : String}
    {j : Json} (v : Json → Option α) (h : objGet fs k = some j)
    (hj : j ≠ .null) : optField fs k v = (v j).map some := by
  unfold optField
  rw [h]
  cases j <;> simp_all

theorem optField_str_rt {fs : List (String × Json)} {k : String} (o : Option String)
    (h : objGet fs k = some (jsonOfOptStr o)) : optField fs k vStr = some o := by
  cases o <;> simp [optField, h, jsonOfOptStr, vStr]

theorem optField_bool_rt {fs : List (String × Json)} {k : String} (o : Option Bool)
    (h : objGet fs k = some (jsonOfOptBool o)) : optField fs k vBool = some o := by
  cases o <;> simp [optField, h, jsonOfOptBool, vBool]

theorem optField_int_rt {fs : List (String × Json)} {k : String} (o : Option Int)
    (h : objGet fs k = some (jsonOfOptInt o)) : optField fs k vInt = some o := by
  cases o <;> simp [optField, h, jsonOfOptInt, vInt]

theorem optField_rt {α : Type} {fs : List (String × Json)} {k : String}
    (v : Json → Option α) (f : α → Json) (o : Option α)
    (hv : ∀ a, v (f a) = some a) (hnn : ∀ a, f a ≠ Json.null)
    (h : objGet fs k = some (jsonOfOpt f o)) : optField fs k v = some o := by
  cases o with
  | none => simp [optField, h, jsonOfOpt]
  | some a =>
      rw [optField_eq_of_ne_null v (by simpa [jsonOfOpt] using h) (hnn a), hv a]
      rfl

/-- Keys are preserved by validating every value of a key/value list. -/
theorem mapM_pairs_keys {α : Type} (p : Json → Option α) :
    ∀ (l : List (String × Json)) (out : List (String × α)),
      l.mapM (fun kv => (p kv.2).map ((kv.1, ·))) = some out →
      out.map Prod.fst = l.map Prod.fst := by
  intro l
  induction l with
  | nil => intro out h; simp only [List.mapM_nil] at h; cases h; rfl
  | cons kv t ih =>
      intro out h
      simp only [List.mapM_cons, bind, Option.bind_eq_some, pure,
        Option.some.injEq] at h
      obtain ⟨x, hx, xs, hxs, hout⟩ := h
      obtain ⟨a, ha, hxa⟩ := Option.map_eq_some'.mp hx
      subst hout
      simp [← hxa, ih xs hxs]

/-- Every validated entry of a key/value list comes from an input entry with
the same key. -/
theorem mapM_pairs_mem {α : Type} (p : Json → Option α) :
    ∀ (l : List (String × Json)) (out : List (String × α)),
      l.mapM (fun kv => (p kv.2).map ((kv.1, ·))) = some out →
      ∀ q ∈ out, ∃ kv ∈ l, kv.1 = q.1 ∧ p kv.2 = some q.2 := by
  intro l
  induction l with
  | nil =>
      intro out h
      simp only [List.mapM_nil] at h
      cases h
      intro q hq
      exact absurd hq (List.not_mem_nil q)
  | cons kv t ih =>
      intro out h
      simp only [List.mapM_cons, bind, Option.bind_eq_some, pure,
        Option.some.injEq] at h
      obtain ⟨x, hx, xs, hxs, hout⟩ := h
      obtain ⟨a, ha, hxa⟩ := Option.map_eq_some'.mp hx
      subst hout
      intro q hq
      rcases List.mem_cons.mp hq with hq | hq
      · subst hq
        exact ⟨kv, List.mem_cons_self _ _, by simp [← hxa], by simp [← hxa, ha]⟩
      · obtain ⟨kv', hkv', hk, hp⟩ := ih xs hxs q hq
        exact ⟨kv', List.mem_cons_of_mem _ hkv', hk, hp⟩

/-! ## Round-trip lemmas for the `Ref` module -/

theorem Ref.validateMergeQueueConfig_toJson (c : MergeQueueConfig) :
    Ref.validateMergeQueueConfig c.toJson = some c := by
  obtain ⟨e, t⟩ := c
  cases t <;> rfl

theorem Ref.validatePRShepherdConfig_toJson (c : PRShepherdConfig) :
    Ref.validatePRShepherdConfig c.toJson = some c := by
  obtain ⟨e, t⟩ := c
  cases t <;> rfl

theorem Ref.validateForkConfig_toJson (c : ForkConfig) :
    Ref.validateForkConfig c.toJson = some c := by
  obtain ⟨isf, uu, uo, ur, ffm⟩ := c
  have hdk : dedupKeys [("is_fork", Json.bool isf),
      ("upstream_url", jsonOfOptStr uu), ("upstream_owner", jsonOfOptStr uo),
      ("upstream_repo", jsonOfOptStr ur),
      ("force_fork_mode", jsonOfOptBool ffm)] = _ :=
    dedupKeys_eq_self (by simp)
  simp only [ForkConfig.toJson, Ref.validateForkConfig]
  rw [reqField_of vBool (by rw [objGet, hdk]; rfl),
      optField_str_rt uu (by rw [objGet, hdk]; rfl),
      optField_str_rt uo (k := "upstream_owner") (by rw [objGet, hdk]; rfl),
      optField_str_rt ur (k := "upstream_repo") (by rw [objGet, hdk]; rfl),
      optField_bool_rt ffm (by rw [objGet, hdk]; rfl)]
  rfl

theorem Ref.validateTaskHistoryEntry_toJson (e : Ref.TaskHistoryEntry) :
    Ref.validateTaskHistoryEntry e.toJson = some e := by
  obtain ⟨nm, tk, br, pu, pn, st, sm, fr, ca, co⟩ := e
  have hdk : dedupKeys [("name", Json.str nm), ("task", Json.str tk),
      ("branch", Json.str br), ("pr_url", jsonOfOptStr pu),
      ("pr_number", jsonOfOptInt pn), ("status", Json.str st.toWire),
      ("summary", jsonOfOptStr sm), ("failure_reason", jsonOfOptStr fr),
      ("created_at", Json.str ca), ("completed_at", jsonOfOptStr co)] = _ :=
    dedupKeys_eq_self (by simp)
  simp only [Ref.TaskHistoryEntry.toJson, Ref.validateTaskHistoryEntry]
  rw [reqField_of vStr (k := "name") (by rw [objGet, hdk]; rfl),
      reqField_of vStr (k := "task") (by rw [objGet, hdk]; rfl),
      reqField_of vStr (k := "branch") (by rw [objGet, hdk]; rfl),
      optField_str_rt pu (by rw [objGet, hdk]; rfl),
      optField_int_rt pn (by rw [objGet, hdk]; rfl),
      reqField_of vTaskStatus (by rw [objGet, hdk]; rfl),
      optField_str_rt sm (k := "summary") (by rw [objGet, hdk]; rfl),
      optField_str_rt fr (k := "failure_reason") (by rw [objGet, hdk]; rfl),
      reqField_of vStr (k := "created_at") (by rw [objGet, hdk]; rfl),
      optField_str_rt co (k := "completed_at") (by rw [objGet, hdk]; rfl),
      vTaskStatus_toWire]
  simp [vStr]

theorem Ref.validateAgent_toJson (a : Ref.Agent) :
    Ref.validateAgent a.toJson = some a := by
  obtain ⟨ty, wp, tw, si, pid, tk, sm, fr, ca, ln, rc⟩ := a
  have hdk : dedupKeys [("type", Json.str ty.toWire),
      ("worktree_path", Json.str wp), ("tmux_window", Json.str tw),
      ("session_id", Json.str si), ("pid", Json.num pid),
      ("task", jsonOfOptStr tk), ("summary", jsonOfOptStr sm),
      ("failure_reason", jsonOfOptStr fr), ("created_at", Json.str ca),
      ("last_nudge", jsonOfOptStr ln),
      ("ready_for_cleanup", jsonOfOptBool rc)] = _ :=
    dedupKeys_eq_self (by simp)
  simp only [Ref.Agent.toJson, Ref.validateAgent]
  rw [reqField_of vAgentType (by rw [objGet, hdk]; rfl),
      reqField_of vStr (k := "worktree_path") (by rw [objGet, hdk]; rfl),
      reqField_of vStr (k := "tmux_window") (by rw [objGet, hdk]; rfl),
      reqField_of vStr (k := "session_id") (by rw [objGet, hdk]; rfl),
      reqField_of vInt (by rw [objGet, hdk]; rfl),
      optField_str_rt tk (by rw [objGet, hdk]; rfl),
      optField_str_rt sm (k := "summary") (by rw [objGet, hdk]; rfl),
      optField_str_rt fr (k := "failure_reason") (by rw [objGet, hdk]; rfl),
      reqField_of vStr (k := "created_at") (by rw [objGet, hdk]; rfl),
      optField_str_rt ln (k := "last_nudge") (by rw [objGet, hdk]; rfl),
      optField_bool_rt rc (by rw [objGet, hdk]; rfl),
      vAgentType_toWire]
  simp [vStr, vInt]

theorem Ref.mapM_agents (l : List (String × Ref.Agent)) :
    (l.map fun p => (p.1, p.2.toJson)).mapM
      (fun kv => (Ref.validateAgent kv.2).map ((kv.1, ·))) = some l := by
  induction l with
  | nil => rfl
  | cons p t ih =>
      simp only [List.map_cons, List.mapM_cons, ih]
      simp [Ref.validateAgent_toJson]

theorem Ref.validateAgentMap_map (l : List (String × Ref.Agent))
    (h : (l.map Prod.fst).Nodup) :
    Ref.validateAgentMap (.obj (l.map fun p => (p.1, p.2.toJson))) = some l := by
  have hkeys : ((l.map fun p => (p.1, p.2.toJson)).map Prod.fst).Nodup := by
    simpa [List.map_map, Function.comp] using h
  simp only [Ref.validateAgentMap, dedupKeys_eq_self hkeys]
  exact Ref.mapM_agents l

theorem Ref.mapM_taskHistory (l : List Ref.TaskHistoryEntry) :
    (l.map Ref.TaskHistoryEntry.toJson).mapM Ref.validateTaskHistoryEntry
      = some l := by
  induction l with
  | nil => rfl
  | cons e t ih =>
      simp only [List.map_cons, List.mapM_cons, ih]
      simp [Ref.validateTaskHistoryEntry_toJson]

theorem Ref.validateTaskHistoryList_rt (l : List Ref.TaskHistoryEntry) :
    Ref.validateTaskHistoryList (.arr (l.map Ref.TaskHistoryEntry.toJson))
      = some l := by
  simp only [Ref.validateTaskHistoryList]
  exact Ref.mapM_taskHistory l

theorem Ref.validateRepository_toJson (r : Ref.Repository) (h : r.keysNodup) :
    Ref.validateRepository r.toJson = some r := by
  obtain ⟨gh, ts, ag, th, mq, ps, fc, tb⟩ := r
  have hag : (ag.map Prod.fst).Nodup := h
  have hdk : dedupKeys [("github_url", Json.str gh),
      ("tmux_session", Json.str ts),
      ("agents", Json.obj (ag.map fun p => (p.1, p.2.toJson))),
      ("task_history",
        jsonOfOpt (fun l => Json.arr (l.map Ref.TaskHistoryEntry.toJson)) th),
      ("merge_queue_config", jsonOfOpt MergeQueueConfig.toJson mq),
      ("pr_shepherd_config", jsonOfOpt PRShepherdConfig.toJson ps),
      ("fork_config", jsonOfOpt ForkConfig.toJson fc),
      ("target_branch", jsonOfOptStr tb)] = _ :=
    dedupKeys_eq_self (by simp)
  simp only [Ref.Repository.toJson, Ref.validateRepository]
  rw [reqField_of vStr (k := "github_url") (by rw [objGet, hdk]; rfl),
      reqField_of vStr (k := "tmux_session") (by rw [objGet, hdk]; rfl),
      reqField_of Ref.validateAgentMap (by rw [objGet, hdk]; rfl),
      optField_rt Ref.validateTaskHistoryList
        (fun l => Json.arr (l.map Ref.TaskHistoryEntry.toJson)) th
        Ref.validateTaskHistoryList_rt (fun _ => by simp)
        (by rw [objGet, hdk]; rfl),
      optField_rt Ref.validateMergeQueueConfig MergeQueueConfig.toJson mq
        Ref.validateMergeQueueConfig_toJson
        (fun c => by simp [MergeQueueConfig.toJson])
        (by rw [objGet, hdk]; rfl),
      optField_rt Ref.validatePRShepherdConfig PRShepherdConfig.toJson ps
        Ref.validatePRShepherdConfig_toJson
        (fun c => by simp [PRShepherdConfig.toJson])
        (by rw [objGet, hdk]; rfl),
      optField_rt Ref.validateForkConfig ForkConfig.toJson fc
        Ref.validateForkConfig_toJson
        (fun c => by simp [ForkConfig.toJson])
        (by rw [objGet, hdk]; rfl),
      optField_str_rt tb (k := "target_branch") (by rw [objGet, hdk]; rfl),
      Ref.validateAgentMap_map ag hag]
  simp [vStr]

theorem Ref.mapM_repos (l : List (String × Ref.Repository))
    (h : ∀ p ∈ l, Ref.Repository.keysNodup p.2) :
    (l.map fun p => (p.1, p.2.toJson)).mapM
      (fun kv => (Ref.validateRepository kv.2).map ((kv.1, ·))) = some l := by
  induction l with
  | nil => rfl
  | cons p t ih =>
      have hp := h p (List.mem_cons_self _ _)
      have ht : ∀ q ∈ t, Ref.Repository.keysNodup q.2 := fun q hq =>
        h q (List.mem_cons_of_mem _ hq)
      simp only [List.map_cons, List.mapM_cons, ih ht]
      simp [Ref.validateRepository_toJson p.2 hp]

theorem Ref.validateRepoMap_map (l : List (String × Ref.Repository))
    (h1 : (l.map Prod.fst).Nodup)
    (h2 : ∀ p ∈ l, Ref.Repository.keysNodup p.2) :
    Ref.validateRepoMap (.obj (l.map fun p => (p.1, p.2.toJson))) = some l := by
  have hkeys : ((l.map fun p => (p.1, p.2.toJson)).map Prod.fst).Nodup := by
    simpa [List.map_map, Function.comp] using h1
  simp only [Ref.validateRepoMap, dedupKeys_eq_self hkeys]
  exact Ref.mapM_repos l h2

theorem Ref.validateState_toJson (s : Ref.State) (h : s.keysNodup) :
    Ref.validateState s.toJson = some s := by
  obtain ⟨repos, cr⟩ := s
  obtain ⟨h1, h2⟩ := h
  have hdk : dedupKeys [("repos", Json.obj (repos.map fun p => (p.1, p.2.toJson))),
      ("current_repo", jsonOfOptStr cr)] = _ :=
    dedupKeys_eq_self (by simp)
  simp only [Ref.State.toJson, Ref.validateState]
  rw [reqField_of Ref.validateRepoMap (by rw [objGet, hdk]; rfl),
      optField_str_rt cr (by rw [objGet, hdk]; rfl),
      Ref.validateRepoMap_map repos h1 h2]
  rfl

/-! ## Inversion lemmas for validation -/

theorem vAgentType_eq_some {j : Json} {t : AgentType} (h : vAgentType j = some t) :
    j = .str t.toWire := by
  unfold vAgentType at h
  split at h <;>
    first
      | exact Option.noConfusion h
      | (injection h with h2; subst h2; rfl)

theorem Ref.validateAgentMap_keys {j : Json} {l : List (String × Ref.Agent)}
    (h : Ref.validateAgentMap j = some l) : (l.map Prod.fst).Nodup := by
  unfold Ref.validateAgentMap at h
  split at h
  · next fs =>
      rw [mapM_pairs_keys Ref.validateAgent (dedupKeys fs) l h]
      exact dedupKeys_keys_nodup fs
  · simp at h

theorem Ref.validateRepository_keysNodup {j : Json} {r : Ref.Repository}
    (h : Ref.validateRepository j = some r) : r.keysNodup := by
  unfold Ref.validateRepository at h
  split at h
  · next fs =>
      simp only [bind, Option.bind_eq_some, pure, Option.some.injEq] at h
      obtain ⟨gh, hgh, ts, hts, ag, hag, th, hth, mq, hmq, ps, hps, fc, hfc,
        tb, htb, hr⟩ := h
      obtain ⟨ja, hja, hja2⟩ := reqField_eq_some hag
      subst hr
      exact Ref.validateAgentMap_keys hja2
  · simp at h

theorem Ref.validateRepoMap_inv {j : Json} {l : List (String × Ref.Repository)}
    (h : Ref.validateRepoMap j = some l) :
    (l.map Prod.fst).Nodup ∧ ∀ p ∈ l, Ref.Repository.keysNodup p.2 := by
  unfold Ref.validateRepoMap at h
  split at h
  · next fs =>
      constructor
      · rw [mapM_pairs_keys Ref.validateRepository (dedupKeys fs) l h]
        exact dedupKeys_keys_nodup fs
      · intro p hp
        obtain ⟨kv, hkv, hk, hv⟩ :=
          mapM_pairs_mem Ref.validateRepository (dedupKeys fs) l h p hp
        exact Ref.validateRepository_keysNodup hv
  · simp at h

theorem Ref.validateState_keysNodup {j : Json} {s : Ref.State}
    (h : Ref.validateState j = some s) : s.keysNodup := by
  unfold Ref.validateState at h
  split at h
  · next fs =>
      simp only [bind, Option.bind_eq_some, pure, Option.some.injEq] at h
      obtain ⟨rp, hrp, cr, hcr, hs⟩ := h
      obtain ⟨jr, hjr, hjr2⟩ := reqField_eq_some hrp
      obtain ⟨h1, h2⟩ := Ref.validateRepoMap_inv hjr2
      subst hs
      exact ⟨h1, h2⟩
  · simp at h

/-- A successfully parsed agent came from an object whose `type` field is the
wire string of the resulting agent's type. -/
theorem Ref.parse_agent_type_inv {j : Json} {a : Ref.Agent}
    (h : Ref.parse_agent j = some a) :
    ∃ fs, j = .obj fs ∧ objGet fs "type" = some (.str a.type.toWire) := by
  unfold Ref.parse_agent Ref.validateAgent at h
  split at h
  · next fs =>
      simp only [bind, Option.bind_eq_some, pure, Option.some.injEq] at h
      obtain ⟨ty, hty, wp, hwp, tw, htw, si, hsi, pid, hpid, tk, htk, sm, hsm,
        fr, hfr, ca, hca, ln, hln, rc, hrc, ha⟩ := h
      obtain ⟨jt, hjt, hv⟩ := reqField_eq_some hty
      refine ⟨fs, rfl, ?_⟩
      rw [hjt, vAgentType_eq_some hv]
      subst ha
      rfl
  · simp at h

/-! ## Claims -/

/-- C1: `is_persistent_agent_type` returns `True` exactly for
`supervisor`, `merge-queue`, `pr-shepherd`, `workspace` and
`generic-persistent`, and `False` for `worker` and `review`, in both the
reference module and the template module; equivalently,
`PERSISTENT_AGENT_TYPES` of both modules equals that five-element set. -/
theorem C1_is_persistent_agent_type :
    (∀ t : AgentType,
      (Ref.is_persistent_agent_type t = true ↔
        (t = .supervisor ∨ t = .mergeQueue ∨ t = .prShepherd ∨
         t = .workspace ∨ t = .genericPersistent))
      ∧ Tool.is_persistent_agent_type t = Ref.is_persistent_agent_type t)
    ∧ Ref.is_persistent_agent_type .worker = false
    ∧ Ref.is_persistent_agent_type .review = false
    ∧ Tool.is_persistent_agent_type .worker = false
    ∧ Tool.is_persistent_agent_type .review = false
    ∧ (∀ t : AgentType, t ∈ Ref.PERSISTENT_AGENT_TYPES ↔
        t ∈ ([.supervisor, .mergeQueue, .prShepherd, .workspace,
              .genericPersistent] : List AgentType))
    ∧ (∀ t : AgentType, t ∈ Tool.PERSISTENT_AGENT_TYPES ↔
        t ∈ ([.supervisor, .mergeQueue, .prShepherd, .workspace,
              .genericPersistent] : List AgentType)) := by
  decide

/-- C2: serializing any valid in-memory `State` (distinct dict keys, as
Python dicts guarantee) to JSON and parsing it back with `parse_state`
yields an equal `State`, absent optional fields included. -/
theorem C2_state_json_roundtrip (s : Ref.State) (h : s.keysNodup) :
    Ref.parse_state s.toJson = some s :=
  Ref.validateState_toJson s h

theorem C2_state_json_roundtrip_witness :
    Ref.State.keysNodup exState ∧ Ref.parse_state exState.toJson = some exState :=
  ⟨by decide, C2_state_json_roundtrip exState (by decide)⟩

/-- C3: every `State` obtained through the model types (any JSON document
accepted by `parse_state`) has unique repository names in the store and
unique agent names within each repository. -/
theorem C3_parsed_state_names_unique (j : Json) (s : Ref.State)
    (h : Ref.parse_state j = some s) :
    (s.repos.map Prod.fst).Nodup ∧
    ∀ p ∈ s.repos, (p.2.agents.map Prod.fst).Nodup :=
  Ref.validateState_keysNodup h

theorem C3_parsed_state_names_unique_witness :
    (exState.repos.map Prod.fst).Nodup ∧
    ∀ p ∈ exState.repos, (p.2.agents.map Prod.fst).Nodup :=
  C3_parsed_state_names_unique exState.toJson exState
    (Ref.validateState_toJson exState (by decide))

/-- C7: `parse_agent` accepts a record only when its `type` field is one of
the seven agent-type strings, and rejects (raises a validation error,
modelled as `none`) every input whose `type` field is any other value. -/
theorem C7_parse_agent_type_closed :
    (∀ (j : Json) (a : Ref.Agent), Ref.parse_agent j = some a →
      ∃ fs t, j = .obj fs ∧ objGet fs "type" = some (.str t) ∧
        t ∈ ["supervisor", "worker", "merge-queue", "pr-shepherd",
             "workspace", "review", "generic-persistent"])
    ∧ (∀ (fs : List (String × Json)) (j : Json),
        objGet fs "type" = some j →
        (∀ t : String, j = .str t →
          t ∉ ["supervisor", "worker", "merge-queue", "pr-shepherd",
               "workspace", "review", "generic-persistent"]) →
        Ref.parse_agent (.obj fs) = none) := by
  constructor
  · intro j a h
    obtain ⟨fs, hj, hget⟩ := Ref.parse_agent_type_inv h
    refine ⟨fs, a.type.toWire, hj, hget, ?_⟩
    cases a.type <;> decide
  · intro fs j hget hnot
    cases hp : Ref.parse_agent (.obj fs) with
    | none => rfl
    | some a =>
        exfalso
        obtain ⟨fs', hj', hget'⟩ := Ref.parse_agent_type_inv hp
        injection hj' with hfs
        subst hfs
        rw [hget] at hget'
        injection hget' with hjj
        refine hnot a.type.toWire hjj ?_
        cases a.type <;> decide

theorem C7_parse_agent_type_closed_witness :
    ∃ fs t, exAgent.toJson = .obj fs ∧ objGet fs "type" = some (.str t) ∧
      t ∈ ["supervisor", "worker", "merge-queue", "pr-shepherd",
           "workspace", "review", "generic-persistent"] :=
  C7_parse_agent_type_closed.1 exAgent.toJson exAgent
    (Ref.validateAgent_toJson exAgent)

/-- C4 counterexample: the empty JSON object is rejected by the reference
module's `MergeQueueConfig` validation (both fields required) but accepted by
the template module's (both fields defaulted), so validation does not succeed
in one module exactly when it succeeds in the other. -/
theorem C4_counterexample :
    Ref.validateMergeQueueConfig (.obj []) = none ∧
    Tool.validateMergeQueueConfig (.obj [])
      = some { enabled := true, track_mode := .all } := by
  exact ⟨rfl, rfl⟩

/-- C4 (amended): validation is a one-way refinement on the config models —
every JSON object the reference module accepts as `MergeQueueConfig`,
`PRShepherdConfig` or `ForkConfig` is accepted by the template module with
identical field values; the converse fails because of the template module's
defaults. -/
theorem C4_config_validation_refinement :
    ∀ j : Json,
      (∀ c : MergeQueueConfig, Ref.validateMergeQueueConfig j = some c →
        Tool.validateMergeQueueConfig j = some c)
      ∧ (∀ c : PRShepherdConfig, Ref.validatePRShepherdConfig j = some c →
        Tool.validatePRShepherdConfig j = some c)
      ∧ (∀ c : ForkConfig, Ref.validateForkConfig j = some c →
        Tool.validateForkConfig j = some c) := by
  intro j
  refine ⟨?_, ?_, ?_⟩
  · intro c h
    unfold Ref.validateMergeQueueConfig at h
    split at h
    · next fs =>
        simp only [bind, Option.bind_eq_some, pure, Option.some.injEq] at h
        obtain ⟨e, he, t, ht, hc⟩ := h
        subst hc
        unfold Tool.validateMergeQueueConfig
        simp only [bind, Option.bind_eq_some, pure, Option.some.injEq]
        exact ⟨e, reqField_imp_defField true he, t, reqField_imp_defField .all ht, rfl⟩
    · simp at h
  · intro c h
    unfold Ref.validatePRShepherdConfig at h
    split at h
    · next fs =>
        simp only [bind, Option.bind_eq_some, pure, Option.some.injEq] at h
        obtain ⟨e, he, t, ht, hc⟩ := h
        subst hc
        unfold Tool.validatePRShepherdConfig
        simp only [bind, Option.bind_eq_some, pure, Option.some.injEq]
        exact ⟨e, reqField_imp_defField true he, t, reqField_imp_defField .author ht, rfl⟩
    · simp at h
  · intro c h
    unfold Ref.validateForkConfig at h
    split at h
    · next fs =>
        simp only [bind, Option.bind_eq_some, pure, Option.some.injEq] at h
        obtain ⟨isf, hisf, uu, huu, uo, huo, ur, hur, ffm, hffm, hc⟩ := h
        subst hc
        unfold Tool.validateForkConfig
        simp only [bind, Option.bind_eq_some, pure, Option.some.injEq]
        exact ⟨isf, reqField_imp_defField false hisf, uu, huu, uo, huo,
          ur, hur, ffm, hffm, rfl⟩
    · simp at h

theorem C4_config_validation_refinement_witness :
    Ref.validateMergeQueueConfig
        (.obj [("enabled", .bool false), ("track_mode", .str "assigned")])
      = some { enabled := false, track_mode := .assigned }
    ∧ Tool.validateMergeQueueConfig
        (.obj [("enabled", .bool false), ("track_mode", .str "assigned")])
      = some { enabled := false, track_mode := .assigned } :=
  ⟨rfl,
    (C4_config_validation_refinement
      (.obj [("enabled", .bool false), ("track_mode", .str "assigned")])).1
      { enabled := false, track_mode := .assigned } rfl⟩

/-- C5 counterexample: `DaemonClient.ping` evaluates to the identical result
(`False`, no exception) when the socket file does not exist and when the
daemon answers `success=false`, so ping's caller cannot tell the two apart. -/
theorem C5_counterexample :
    Tool.DaemonClient.ping "/home/u/.multiclaude/daemon.sock" false
        (.response { success := true, data := none, error := none })
      = .ok false
    ∧ Tool.DaemonClient.ping "/home/u/.multiclaude/daemon.sock" true
        (.response { success := false, data := none, error := some "unknown command" })
      = .ok false := by
  exact ⟨rfl, rfl⟩

/-- C5 (amended): when the socket file does not exist, `_send_request`
raises `DaemonError("Socket not found: ...")` — a connectivity failure
distinct from any daemon response — but `ping` itself catches `DaemonError`
and returns `False`, the same value it returns for a `success=false`
response; a present socket delivers any daemon response unchanged. -/
theorem C5_ping_connectivity :
    ∀ (path : String) (outcome : Tool.ReplyOutcome) (r : Tool.SocketResponse),
      Tool.DaemonClient.send_request path false outcome
        = .error (.daemonError ("Socket not found: " ++ path))
      ∧ Tool.DaemonClient.ping path false outcome = .ok false
      ∧ Tool.DaemonClient.send_request path true (.response r) = .ok r
      ∧ Tool.DaemonClient.ping path true (.response r) = .ok r.success := by
  intro path outcome r
  exact ⟨rfl, rfl, rfl, rfl⟩

/-- C6 counterexample: a `success=false` response whose `error` field is
present but empty makes `status` raise `DaemonError("Unknown error")`, not a
`DaemonError` carrying the response's error message `""` (Python's
`response.error or "Unknown error"` treats the empty string as falsy). -/
theorem C6_counterexample :
    Tool.DaemonClient.status "/s" true
        (.response { success := false, data := none, error := some "" })
      = .error (.daemonError "Unknown error")
    ∧ Tool.pyOr (some "") "Unknown error" ≠ "" := by
  exact ⟨rfl, by decide⟩

/-- C6 (amended): for every `success=false` response, each data-returning
client method raises `DaemonError` carrying the response's error message —
or `"Unknown error"` when the `error` field is absent or the empty string —
and produces no other result. -/
theorem C6_require_success_failure :
    ∀ (path : String) (r : Tool.SocketResponse)
      (pd : Json → Option PyDateTime) (name task : String)
      (repo branch push_to status : Option String) (limit : Option Int)
      (target body from_agent : String),
      r.success = false →
      Tool.DaemonClient.status path true (.response r)
        = .error (.daemonError (Tool.pyOr r.error "Unknown error"))
      ∧ Tool.DaemonClient.get_state path true (.response r) pd
        = .error (.daemonError (Tool.pyOr r.error "Unknown error"))
      ∧ Tool.DaemonClient.get_repo path true (.response r) pd name
        = .error (.daemonError (Tool.pyOr r.error "Unknown error"))
      ∧ Tool.DaemonClient.spawn_worker path true (.response r) task repo branch push_to
        = .error (.daemonError (Tool.pyOr r.error "Unknown error"))
      ∧ Tool.DaemonClient.task_history path true (.response r) pd repo limit status
        = .error (.daemonError (Tool.pyOr r.error "Unknown error"))
      ∧ Tool.DaemonClient.send_message path true (.response r) target body from_agent
        = .error (.daemonError (Tool.pyOr r.error "Unknown error")) := by
  intro path r pd name task repo branch push_to status limit target body from_agent hf
  obtain ⟨su, da, er⟩ := r
  cases su
  · exact ⟨rfl, rfl, rfl, rfl, rfl, rfl⟩
  · exact absurd hf (by simp)

theorem C6_require_success_failure_witness :
    ({ success := false, data := none,
       error := some "repository not found" } : Tool.SocketResponse).success = false
    ∧ Tool.DaemonClient.status "/s" true
        (.response { success := false, data := none, error := some "repository not found" })
      = .error (.daemonError
          (Tool.pyOr (some "repository not found") "Unknown error")) :=
  ⟨rfl,
    (C6_require_success_failure "/s"
      { success := false, data := none, error := some "repository not found" }
      (fun _ => none) "n" "t" none none none none none "to" "b" "f" rfl).1⟩

/-- C9: `StateReader.read` raises `StateError` when the state file is
missing, when its contents are not valid JSON, and when they do not validate
as `State`; `StateReader.read_or_empty` instead returns the empty `State`
(empty repository map, no current repository) when the file does not
exist. -/
theorem C9_state_reader_errors :
    ∀ (path : String) (pd : Json → Option PyDateTime) (j : Json),
      Tool.StateReader.read path pd .missing
        = .error (.stateError ("State file not found: " ++ path))
      ∧ Tool.StateReader.read path pd .badJson
        = .error (.stateError "Invalid JSON in state file")
      ∧ (Tool.validateState pd j = none →
          Tool.StateReader.read path pd (.json j)
            = .error (.stateError "Failed to parse state"))
      ∧ Tool.StateReader.read_or_empty path pd .missing = .ok Tool.State.default
      ∧ Tool.State.default = { repos := [], current_repo := none } := by
  intro path pd j
  refine ⟨rfl, rfl, ?_, rfl, rfl⟩
  intro h
  simp [Tool.StateReader.read, h]

theorem C9_state_reader_errors_witness :
    Tool.validateState (fun _ => none) (.num 0) = none
    ∧ Tool.StateReader.read "/home/u/.multiclaude/state.json" (fun _ => none)
        (.json (.num 0))
      = .error (.stateError "Failed to parse state") :=
  ⟨rfl,
    (C9_state_reader_errors "/home/u/.multiclaude/state.json" (fun _ => none)
      (.num 0)).2.2.1 rfl⟩

/-- C10: on a successful `spawn_worker` response whose `data` is a mapping,
`DaemonClient.spawn_worker` returns the string stored under `"name"`, and
returns the empty string (without raising) when that key is absent. -/
theorem C10_spawn_worker_name :
    ∀ (path task : String) (repo branch push_to : Option String)
      (fields : List (String × Json)) (er : Option String),
      (∀ s : String, objGet fields "name" = some (.str s) →
        Tool.DaemonClient.spawn_worker path true
          (.response { success := true, data := some (.obj fields), error := er })
          task repo branch push_to = .ok s)
      ∧ (objGet fields "name" = none →
        Tool.DaemonClient.spawn_worker path true
          (.response { success := true, data := some (.obj fields), error := er })
          task repo branch push_to = .ok "") := by
  intro path task repo branch push_to fields er
  constructor
  · intro s h
    simp [Tool.DaemonClient.spawn_worker, Tool.DaemonClient.send_request,
      Tool.DaemonClient.require_success, Tool.pyDictGet, h, Tool.pyStr]
  · intro h
    simp [Tool.DaemonClient.spawn_worker, Tool.DaemonClient.send_request,
      Tool.DaemonClient.require_success, Tool.pyDictGet, h, Tool.pyStr]

theorem C10_spawn_worker_name_witness :
    objGet [("name", Json.str "clever-fox")] "name" = some (.str "clever-fox")
    ∧ Tool.DaemonClient.spawn_worker "/s" true
        (.response
          { success := true
            data := some (.obj [("name", Json.str "clever-fox")])
            error := none })
        "fix bug" none none none = .ok "clever-fox" :=
  ⟨rfl,
    (C10_spawn_worker_name "/s" "fix bug" none none none
      [("name", Json.str "clever-fox")] none).1 "clever-fox" rfl⟩

/-! ## Lemmas for `get_active_workers` -/

theorem Tool.mem_get_active_workers (s : Tool.State) (w : Tool.WorkerInfo) :
    w ∈ Tool.get_active_workers s ↔
      ∃ r a, (w.repo, r) ∈ s.repos ∧ (w.name, a) ∈ r.agents ∧
        a.type = .worker ∧ 0 < a.pid ∧ w.task = a.task ∧
        w.created_at = a.created_at := by
  unfold Tool.get_active_workers
  simp only [List.mem_flatMap, List.mem_filterMap]
  constructor
  · rintro ⟨rp, hrp, ap, hap, hif⟩
    by_cases hc : ap.2.type = .worker ∧ 0 < ap.2.pid
    · rw [if_pos hc] at hif
      injection hif with hw
      subst hw
      exact ⟨rp.2, ap.2, by simpa using hrp, by simpa using hap,
        hc.1, hc.2, rfl, rfl⟩
    · rw [if_neg hc] at hif
      exact Option.noConfusion hif
  · rintro ⟨r, a, hr, ha, h1, h2, h3, h4⟩
    refine ⟨(w.repo, r), hr, (w.name, a), ha, ?_⟩
    rw [if_pos ⟨h1, h2⟩]
    obtain ⟨wr, wn, wt, wc⟩ := w
    simp only at h3 h4
    rw [h3, h4]

theorem Tool.gaw_inner_pairs (rn : String) (agents : List (String × Tool.Agent)) :
    ((agents.filterMap fun ap =>
        if ap.2.type = .worker ∧ 0 < ap.2.pid then
          some (⟨rn, ap.1, ap.2.task, ap.2.created_at⟩ : Tool.WorkerInfo)
        else none).map fun w => (w.repo, w.name))
    = agents.filterMap fun ap =>
        if ap.2.type = .worker ∧ 0 < ap.2.pid then some (rn, ap.1) else none := by
  induction agents with
  | nil => rfl
  | cons ap t ih =>
      by_cases hc : ap.2.type = .worker ∧ 0 < ap.2.pid
      · simp only [List.filterMap_cons, if_pos hc, List.map_cons, ih]
      · simp only [List.filterMap_cons, if_neg hc, ih]

theorem Tool.gaw_inner_keys_nodup (rn : String)
    (agents : List (String × Tool.Agent))
    (h : (agents.map Prod.fst).Nodup) :
    (agents.filterMap fun ap =>
      if ap.2.type = .worker ∧ 0 < ap.2.pid then some (rn, ap.1) else none).Nodup := by
  induction agents with
  | nil => exact List.nodup_nil
  | cons ap t ih =>
      rw [List.map_cons, List.nodup_cons] at h
      obtain ⟨hnot, ht⟩ := h
      by_cases hc : ap.2.type = .worker ∧ 0 < ap.2.pid
      · rw [List.filterMap_cons, if_pos hc]
        refine List.Nodup.cons ?_ (ih ht)
        intro hmem
        obtain ⟨ap2, hap2, hif⟩ := List.mem_filterMap.mp hmem
        by_cases hc2 : ap2.2.type = .worker ∧ 0 < ap2.2.pid
        · rw [if_pos hc2] at hif
          injection hif with hpair
          have : ap2.1 = ap.1 := congrArg Prod.snd hpair
          exact hnot (this ▸ List.mem_map_of_mem Prod.fst hap2)
        · rw [if_neg hc2] at hif
          exact Option.noConfusion hif
      · rw [List.filterMap_cons, if_neg hc]
        exact ih ht

theorem Tool.gaw_inner_fst (rn : String) (agents : List (String × Tool.Agent))
    (x : String × String)
    (hx : x ∈ agents.filterMap fun ap =>
      if ap.2.type = .worker ∧ 0 < ap.2.pid then some (rn, ap.1) else none) :
    x.1 = rn := by
  obtain ⟨ap, hap, hif⟩ := List.mem_filterMap.mp hx
  by_cases hc : ap.2.type = .worker ∧ 0 < ap.2.pid
  · rw [if_pos hc] at hif
    injection hif with hpair
    exact (congrArg Prod.fst hpair).symm
  · rw [if_neg hc] at hif
    exact Option.noConfusion hif

theorem Tool.gaw_pairs_nodup (s : Tool.State) (h : s.keysNodup) :
    ((Tool.get_active_workers s).map fun w => (w.repo, w.name)).Nodup := by
  obtain ⟨l, cr⟩ := s
  obtain ⟨h1, h2⟩ := h
  unfold Tool.get_active_workers
  rw [List.map_flatMap]
  induction l with
  | nil => exact List.nodup_nil
  | cons rp t ih =>
      rw [List.map_cons, List.nodup_cons] at h1
      obtain ⟨hnot, h1t⟩ := h1
      have h2rp : Tool.Repository.keysNodup rp.2 := h2 rp (List.mem_cons_self _ _)
      have h2t : ∀ q ∈ t, Tool.Repository.keysNodup q.2 := fun q hq =>
        h2 q (List.mem_cons_of_mem _ hq)
      rw [List.flatMap_cons]
      refine List.Nodup.append ?_ (ih h1t h2t) ?_
      · rw [Tool.gaw_inner_pairs]
        exact Tool.gaw_inner_keys_nodup rp.1 rp.2.agents h2rp
      · intro x hx1 hx2
        rw [Tool.gaw_inner_pairs] at hx1
        have hx1' : x.1 = rp.1 := Tool.gaw_inner_fst rp.1 rp.2.agents x hx1
        obtain ⟨rq, hrq, hxq⟩ := List.mem_flatMap.mp hx2
        rw [Tool.gaw_inner_pairs] at hxq
        have hxq' : x.1 = rq.1 := Tool.gaw_inner_fst rq.1 rq.2.agents x hxq
        exact hnot (hx1' ▸ hxq' ▸ List.mem_map_of_mem Prod.fst hrq)

/-- C8: `get_active_workers` returns a record (carrying repository name,
agent name, task, creation timestamp) exactly for the agents of type
`worker` with `pid > 0`, across all repositories — and exactly one record
per such agent: the (repo, name) pairs of the output are distinct. -/
theorem C8_get_active_workers (s : Tool.State) (h : s.keysNodup) :
    (∀ w : Tool.WorkerInfo, w ∈ Tool.get_active_workers s ↔
      ∃ r a, (w.repo, r) ∈ s.repos ∧ (w.name, a) ∈ r.agents ∧
        a.type = .worker ∧ 0 < a.pid ∧ w.task = a.task ∧
        w.created_at = a.created_at)
    ∧ ((Tool.get_active_workers s).map fun w => (w.repo, w.name)).Nodup :=
  ⟨fun w => Tool.mem_get_active_workers s w, Tool.gaw_pairs_nodup s h⟩

theorem C8_get_active_workers_witness :
    Tool.State.keysNodup exToolState
    ∧ (⟨"b", "quick-fox", some "fix the bug", exDT⟩ : Tool.WorkerInfo)
        ∈ Tool.get_active_workers exToolState :=
  ⟨by decide,
    ((C8_get_active_workers exToolState (by decide)).1
      ⟨"b", "quick-fox", some "fix the bug", exDT⟩).mpr
      ⟨exToolRepo, exToolWorker, by decide, by decide, rfl, by decide, rfl, rfl⟩⟩
